import Mathlib

/-!
Shallow embedding of the tool-execution layer of the
`ai-dial-general-purpose-agent` repository, together with theorems about its
tool-execution contract (`task/tools/base.py`), streaming aggregation
(`task/tools/deployment/base.py`, `task/tools/rag/rag_tool.py`), the external
tool-server session (`task/tools/mcp/mcp_client.py`), the retrieval pipeline
(`task/tools/rag/rag_tool.py`) and output truncation in the code-execution
tool (`task/tools/py_interpreter/python_code_interpreter_tool.py`).

Python strings are embedded as `String`, `None`-able values as `Option`,
raised exceptions as `Except.error` carrying the exception's description,
and async effects of external collaborators (the chat-completion backend, the
MCP server, the extractor, the embedding model) as explicit function
parameters.  Stateful objects become explicit state passing; observable side
effects on the stage / choice surfaces become explicit event lists.
-/

/- ===== Common data model (aidial-sdk message shapes, as used by the code) ===== -/

/-- Chat roles, from `aidial_sdk.chat_completion.Role` as used by the code. -/
inductive Role
  | system
  | user
  | assistant
  | tool
deriving DecidableEq, Repr

/-- An attachment, with the fields the code reads and forwards
(`type`, `title`, `data`, `url`, `reference_url`, `reference_type`). -/
structure Attachment where
  type : Option String := none
  title : Option String := none
  data : Option String := none
  url : Option String := none
  reference_url : Option String := none
  reference_type : Option String := none
deriving DecidableEq, Repr

/-- `CustomContent` of a message or of a streaming delta: an optional
attachment list. -/
structure CustomContent where
  attachments : Option (List Attachment) := none
deriving DecidableEq, Repr

/-- A chat message, restricted to the fields the embedded code constructs
and inspects. -/
structure Message where
  role : Role
  name : Option String := none
  tool_call_id : Option String := none
  content : Option String := none
  custom_content : Option CustomContent := none
deriving DecidableEq, Repr

/-- The `function` part of a model-issued tool call: name and raw JSON
arguments. -/
structure FunctionCall where
  name : String
  arguments : String
deriving DecidableEq, Repr

/-- A model-issued tool call: correlation id plus the called function. -/
structure ToolCall where
  id : String
  function : FunctionCall
deriving DecidableEq, Repr

/-- An observable event on the append-only stage surface: a text append
(`stage.append_content`) or an attachment add (`stage.add_attachment`). -/
inductive StageEvent
  | appendContent (content : String)
  | addAttachment (a : Attachment)
deriving DecidableEq, Repr

/-- Modelled from the spec: `ToolCallParams` (`task/tools/models.py` is not
under `src/`): the immutable per-invocation bundle — call identifier and
called function (`tool_call`), caller credentials (`api_key`) and the
conversation identifier; the stage / choice surfaces are modelled separately
as explicit event lists. -/
structure ToolCallParams where
  tool_call : ToolCall
  api_key : String
  conversation_id : String
deriving DecidableEq, Repr

/- ===== Tool Execution Contract: `BaseTool.execute` (task/tools/base.py) ===== -/

/-- `BaseTool.execute` from `task/tools/base.py`.  The tool-specific
`_execute` is a parameter: it either raises (`Except.error` with the
exception's description) or returns plain text (`Sum.inl`) or a structured
`Message` (`Sum.inr`).  `execute` builds a tool-role message correlated to
the call and fills it according to the outcome; any exception is caught and
rendered into the message content. -/
def BaseTool.execute (toolExec : ToolCallParams → Except String (String ⊕ Message))
    (tool_call_params : ToolCallParams) : Message :=
  let msg : Message :=
    { role := Role.tool
      name := some tool_call_params.tool_call.function.name
      tool_call_id := some tool_call_params.tool_call.id }
  match toolExec tool_call_params with
  | Except.ok (Sum.inr result) => result
  | Except.ok (Sum.inl result) => { msg with content := some result }
  | Except.error e => { msg with content := some ("ERROR during tool call execution:\n " ++ e) }

/- ===== Streaming aggregation (task/tools/deployment/base.py lines 49-71,
         task/tools/rag/rag_tool.py lines 140-148) ===== -/

/-- A streaming delta: optional text content and optional custom content
with attachments. -/
structure Delta where
  content : Option String := none
  custom_content : Option CustomContent := none
deriving DecidableEq, Repr

/-- A choice of a streaming increment, carrying an optional delta. -/
structure StreamChoice where
  delta : Option Delta := none
deriving DecidableEq, Repr

/-- One streaming increment (`chunk`) of an incremental chat-completion
response. -/
structure StreamChunk where
  choices : List StreamChoice
deriving DecidableEq, Repr

/-- Aggregation state of the deployment-tool streaming loop: accumulated
`content`, collected `attachments` (the `custom_content.attachments` of the
result message), and the events emitted on the stage surface. -/
structure StreamAcc where
  content : String
  attachments : List Attachment
  stage : List StageEvent
deriving DecidableEq, Repr

/-- One iteration of the `async for chunk in chunks` loop of
`DeploymentTool._execute` (`task/tools/deployment/base.py` lines 51-70):
consume the first choice's delta; a truthy text delta is forwarded to the
stage and appended to the aggregate; truthy attachment deltas are extended
onto the collected list and each is forwarded to the stage. -/
def DeploymentTool.streamStep (acc : StreamAcc) (chunk : StreamChunk) : StreamAcc :=
  match chunk.choices.head? with
  | none => acc
  | some choice =>
    match choice.delta with
    | none => acc
    | some delta =>
      let acc1 :=
        match delta.content with
        | none => acc
        | some c =>
          if c = "" then acc
          else { acc with content := acc.content ++ c,
                          stage := acc.stage ++ [StageEvent.appendContent c] }
      match delta.custom_content with
      | none => acc1
      | some cc =>
        match cc.attachments with
        | none => acc1
        | some atts =>
          if atts = [] then acc1
          else { acc1 with attachments := acc1.attachments ++ atts,
                           stage := acc1.stage ++ atts.map StageEvent.addAttachment }

/-- The whole streaming loop of `DeploymentTool._execute`, starting from
empty content, an empty attachment list and no stage output. -/
def DeploymentTool.streamFold (chunks : List StreamChunk) : StreamAcc :=
  chunks.foldl DeploymentTool.streamStep { content := "", attachments := [], stage := [] }

/-- One iteration of the `async for chunk in chunks_stream` loop of
`RagTool._execute` (`task/tools/rag/rag_tool.py` lines 142-147): text-only
aggregation, each truthy delta forwarded to the stage. -/
def RagTool.streamStep (acc : String × List StageEvent) (chunk : StreamChunk) :
    String × List StageEvent :=
  match chunk.choices.head? with
  | none => acc
  | some choice =>
    match choice.delta with
    | none => acc
    | some delta =>
      match delta.content with
      | none => acc
      | some c =>
        if c = "" then acc
        else (acc.1 ++ c, acc.2 ++ [StageEvent.appendContent c])

/-- The whole streaming loop of `RagTool._execute`, starting from
`content = ''` and no stage output. -/
def RagTool.streamFold (chunks : List StreamChunk) : String × List StageEvent :=
  chunks.foldl RagTool.streamStep ("", [])

/- Claim-side helpers describing a streaming increment (used only to state
   the aggregation theorems). -/

/-- The text delta carried by an increment: the first choice's delta
content, when present. -/
def chunkTextDelta (chunk : StreamChunk) : Option String :=
  match chunk.choices.head? with
  | none => none
  | some choice =>
    match choice.delta with
    | none => none
    | some delta => delta.content

/-- The attachment deltas carried by an increment: the first choice's
delta's custom-content attachments, when present. -/
def chunkAttachmentDeltas (chunk : StreamChunk) : List Attachment :=
  match chunk.choices.head? with
  | none => []
  | some choice =>
    match choice.delta with
    | none => []
    | some delta =>
      match delta.custom_content with
      | none => []
      | some cc => cc.attachments.getD []

/-- The stage events an increment gives rise to: its text delta (when
non-empty) followed by its attachment deltas. -/
def chunkStageEvents (chunk : StreamChunk) : List StageEvent :=
  (match chunkTextDelta chunk with
   | none => []
   | some c => if c = "" then [] else [StageEvent.appendContent c]) ++
  (chunkAttachmentDeltas chunk).map StageEvent.addAttachment

/-- Concatenation of a list of text fragments in order. -/
def concatTexts : List String → String
  | [] => ""
  | s :: rest => s ++ concatTexts rest

/-- The text content of a stage event, when it is a text append. -/
def stageText : StageEvent → Option String
  | StageEvent.appendContent c => some c
  | StageEvent.addAttachment _ => none

/- ===== External Tool Session: MCPClient (task/tools/mcp/mcp_client.py) ===== -/

/-- A tool descriptor as listed by the MCP server (`mcp.types.Tool`):
name, description and input schema (the schema is kept opaque). -/
structure MCPServerTool where
  name : String
  description : String
  inputSchema : String
deriving DecidableEq, Repr

/-- `MCPToolModel` (`task/tools/mcp/mcp_tool_model.py`): the client-side
tool descriptor built by `get_tools`. -/
structure MCPToolModel where
  name : String
  description : String
  parameters : String
deriving DecidableEq, Repr

/-- A content item of a `CallToolResult` (`mcp.types`): either
`TextContent` or some other content kind, kept opaque. -/
inductive ToolContent
  | textContent (text : String)
  | otherContent (payload : String)
deriving DecidableEq, Repr

/-- `mcp.types.CallToolResult`, restricted to its content list. -/
structure CallToolResult where
  content : List ToolContent
deriving DecidableEq, Repr

/-- A content item of a `ReadResourceResult` (`mcp.types`):
`TextResourceContents`, `BlobResourceContents` (blob kept as its base64
text) or some other kind, kept opaque. -/
inductive ResourceContents
  | textResourceContents (text : String)
  | blobResourceContents (blob : String)
  | otherContents (payload : String)
deriving DecidableEq, Repr

/-- `mcp.types.ReadResourceResult`, restricted to its contents list. -/
structure ReadResourceResult where
  contents : List ResourceContents
deriving DecidableEq, Repr

/-- The behaviour of the remote MCP server and of the two async context
managers, as seen through the calls the client makes.  Fallible operations
are `Except.error` with the exception's description. -/
structure MCPServer where
  initialized_result : Except String Unit
  ping_result : Except String Unit
  tools : List MCPServerTool
  call_tool_result : String → String → CallToolResult
  read_resource_result : String → ReadResourceResult
  session_aexit : Except String Unit
  streams_aexit : Except String Unit

/-- The mutable state of `MCPClient`: the server URL and the three
internal handles (`session`, `_session_context`, `_streams_context`),
each `None` until set by `connect`. -/
structure MCPClient where
  server_url : String
  session : Option Unit := none
  _session_context : Option Unit := none
  _streams_context : Option Unit := none
deriving DecidableEq, Repr

/-- Observable lifecycle events of the client: context entries, handshake
steps, context exits and `print`ed warnings. -/
inductive MCPEvent
  | openedStreams
  | openedSession
  | initialized
  | pinged
  | exitedSessionContext
  | exitedStreamsContext
  | warned (msg : String)
deriving DecidableEq, Repr

/-- `MCPClient.close` (`task/tools/mcp/mcp_client.py` lines 102-121): exit
the session context, then the streams context (reverse order of entry),
each under its own `try/except` that prints a warning instead of raising;
the `finally` clears all three handles.  Total: close never raises. -/
def MCPClient.close (srv : MCPServer) (st : MCPClient) : MCPClient × List MCPEvent :=
  let sessionEvents :=
    match st._session_context with
    | none => []
    | some _ =>
      match srv.session_aexit with
      | Except.ok _ => [MCPEvent.exitedSessionContext]
      | Except.error e =>
        [MCPEvent.exitedSessionContext,
         MCPEvent.warned ("Warning: Error closing session context: " ++ e)]
  let streamsEvents :=
    match st._streams_context with
    | none => []
    | some _ =>
      match srv.streams_aexit with
      | Except.ok _ => [MCPEvent.exitedStreamsContext]
      | Except.error e =>
        [MCPEvent.exitedStreamsContext,
         MCPEvent.warned ("Warning: Error closing streams context: " ++ e)]
  ({ st with session := none, _session_context := none, _streams_context := none },
   sessionEvents ++ streamsEvents)

/-- `MCPClient.connect` (`task/tools/mcp/mcp_client.py` lines 27-49): a
no-op when already connected; otherwise enter the streams context, enter
the session context, initialize, then ping; a failed initialize propagates
as-is with the handles left set, a failed ping triggers `close` and raises
`ValueError("MCP server connection failed: ...")`.  Returns the outcome,
the post-state and the emitted events. -/
def MCPClient.connect (srv : MCPServer) (st : MCPClient) :
    Except String Unit × MCPClient × List MCPEvent :=
  if st.session.isSome then (Except.ok (), st, [])
  else
    let st2 := { st with _streams_context := some (), _session_context := some (),
                         session := some () }
    let evs2 := [MCPEvent.openedStreams, MCPEvent.openedSession]
    match srv.initialized_result with
    | Except.error e => (Except.error e, st2, evs2)
    | Except.ok _ =>
      let evs3 := evs2 ++ [MCPEvent.initialized]
      match srv.ping_result with
      | Except.ok _ => (Except.ok (), st2, evs3 ++ [MCPEvent.pinged])
      | Except.error e =>
        let closed := MCPClient.close srv st2
        (Except.error ("MCP server connection failed: " ++ e), closed.1, evs3 ++ closed.2)

/-- `MCPClient.get_tools` (`task/tools/mcp/mcp_client.py` lines 51-64):
requires a session; maps each listed tool to an `MCPToolModel`. -/
def MCPClient.get_tools (srv : MCPServer) (st : MCPClient) :
    Except String (List MCPToolModel) :=
  match st.session with
  | none => Except.error "MCP client not connected."
  | some _ =>
    Except.ok (srv.tools.map (fun tool =>
      { name := tool.name, description := tool.description,
        parameters := tool.inputSchema }))

/-- The value returned by `call_tool`: Python `None`, a text, or the first
content item itself as an opaque value. -/
inductive CallToolValue
  | nothing
  | text (s : String)
  | item (c : ToolContent)
deriving DecidableEq, Repr

/-- `MCPClient.call_tool` (`task/tools/mcp/mcp_client.py` lines 66-81):
requires a session; returns `None` on an empty content list, the text of
the first content item when textual, otherwise the first item itself. -/
def MCPClient.call_tool (srv : MCPServer) (st : MCPClient)
    (tool_name : String) (tool_args : String) : Except String CallToolValue :=
  match st.session with
  | none => Except.error "MCP client not connected."
  | some _ =>
    let tool_result := srv.call_tool_result tool_name tool_args
    match tool_result.content with
    | [] => Except.ok CallToolValue.nothing
    | content :: _ =>
      match content with
      | ToolContent.textContent text => Except.ok (CallToolValue.text text)
      | c => Except.ok (CallToolValue.item c)

/-- The value returned by `get_resource`: text (`str`) or blob. -/
inductive ResourceValue
  | text (s : String)
  | blob (b : String)
deriving DecidableEq, Repr

/-- `MCPClient.get_resource` (`task/tools/mcp/mcp_client.py` lines 83-100):
requires a session; empty contents raise, a textual first item returns its
text, a blob first item returns its blob, anything else raises. -/
def MCPClient.get_resource (srv : MCPServer) (st : MCPClient) (uri : String) :
    Except String ResourceValue :=
  match st.session with
  | none => Except.error "MCP client not connected."
  | some _ =>
    let resource_result := srv.read_resource_result uri
    match resource_result.contents with
    | [] => Except.error ("No content in resource: " ++ uri)
    | content :: _ =>
      match content with
      | ResourceContents.textResourceContents text => Except.ok (ResourceValue.text text)
      | ResourceContents.blobResourceContents blob => Except.ok (ResourceValue.blob blob)
      | ResourceContents.otherContents payload =>
        Except.error ("Unexpected content type: " ++ payload)

/- ===== Retrieval Pipeline: RagTool (task/tools/rag/rag_tool.py) ===== -/

/-- An embedding vector.  The sentence-transformer embedding model is an
external black box; its vectors are modelled with exact integer
coordinates. -/
abbrev EmbeddingVec := List Int

/-- A `faiss.IndexFlatL2` over the document chunks, modelled as its stored
vectors in insertion order (row `i` is the embedding of chunk `i`). -/
abbrev IndexFlatL2 := List EmbeddingVec

/-- Squared L2 distance between two vectors. -/
def l2sq (a b : EmbeddingVec) : Int :=
  (List.zipWith (fun x y => (x - y) * (x - y)) a b).sum

/-- The comparison used to order search hits: strictly smaller distance
first, ties broken by the smaller row index. -/
def distLE (p q : Int × Nat) : Prop :=
  p.1 < q.1 ∨ (p.1 = q.1 ∧ p.2 ≤ q.2)

instance : DecidableRel distLE := fun p q => by unfold distLE; infer_instance

/-- Modelled from the spec: `faiss.IndexFlatL2.search` (faiss is an
external collaborator, used as a black box with its documented contract):
return the indices of the `k` stored vectors nearest to the query by L2
distance, in increasing distance order. -/
def IndexFlatL2.search (index : IndexFlatL2) (query : EmbeddingVec) (k : Nat) : List Nat :=
  ((((List.range index.length).map
      (fun i => (l2sq (index.getD i []) query, i))).insertionSort distLE).take k).map
    (fun p => p.2)

/-- Modelled from the spec: the Document Cache
(`task/tools/rag/document_cache.py` is not under `src/`): a process-wide
key → (index, chunks) store. -/
abbrev DocumentCache := List (String × (IndexFlatL2 × List String))

/-- Modelled from the spec: `DocumentCache.get` returns the stored
(index, chunks) entry for a key, when present. -/
def DocumentCache.get (cache : DocumentCache) (key : String) :
    Option (IndexFlatL2 × List String) :=
  List.lookup key cache

/-- Modelled from the spec: `DocumentCache.set` stores an (index, chunks)
entry under a key (a later entry for the same key wins). -/
def DocumentCache.set (cache : DocumentCache) (key : String)
    (index : IndexFlatL2) (chunks : List String) : DocumentCache :=
  (key, (index, chunks)) :: cache

/-- `RagTool.__augmentation` (`task/tools/rag/rag_tool.py` lines 150-153):
combine the retrieved chunks, separated by blank lines, with the user's
request. -/
def RagTool.augmentation (request : String) (chunks : List String) : String :=
  let joined_chunks := String.intercalate "\n\n" chunks
  "CONTEXT:\n" ++ joined_chunks ++ "\n---\nREQUEST: " ++ request

/-- The observable outcome of one `RagTool._execute` call: the cache after
the call, how often the extractor and the document-embedding step were
invoked during the call, the early-return error text (when extraction found
nothing), the chunk list in play, the retrieved chunks and the augmented
prompt sent as the user turn. -/
structure RagOutcome where
  cache : DocumentCache
  extract_calls : Nat
  embed_calls : Nat
  error : Option String
  chunks : List String
  retrieved_chunks : List String
  augmented_prompt : Option String
deriving Repr

/-- The query half of `RagTool._execute` (`task/tools/rag/rag_tool.py`
lines 111-116): embed the request, search the index for the
`k = min(3, len(chunks))` nearest chunks, and build the augmented prompt. -/
def RagTool.rag_query (encode : String → EmbeddingVec) (request : String)
    (cache : DocumentCache) (extract_calls embed_calls : Nat)
    (index : IndexFlatL2) (chunks : List String) : RagOutcome :=
  let query_embedding := encode request
  let k := min 3 chunks.length
  let indices := IndexFlatL2.search index query_embedding k
  let retrieved_chunks := indices.map (fun idx => chunks.getD idx "")
  { cache := cache, extract_calls := extract_calls, embed_calls := embed_calls,
    error := none, chunks := chunks, retrieved_chunks := retrieved_chunks,
    augmented_prompt := some (RagTool.augmentation request retrieved_chunks) }

/-- The cache / retrieval core of `RagTool._execute`
(`task/tools/rag/rag_tool.py` lines 89-116).  The text splitter, the
embedding model and the extractor are external collaborators passed as
functions; `encode` embeds one text (the document-embedding step
`model.encode(chunks)` maps it over the chunks and is counted by
`embed_calls`).  A cache hit at `conversation_id:file_url` reuses the
stored (index, chunks) pair; a miss extracts, splits, embeds, builds the
index and stores it; empty extracted text returns the error content
early. -/
def RagTool._execute (split : String → List String) (encode : String → EmbeddingVec)
    (extract_text : String → String) (conversation_id request file_url : String)
    (cache : DocumentCache) : RagOutcome :=
  let cache_document_key := conversation_id ++ ":" ++ file_url
  match DocumentCache.get cache cache_document_key with
  | some (index, chunks) => RagTool.rag_query encode request cache 0 0 index chunks
  | none =>
    let text_content := extract_text file_url
    if text_content = "" then
      { cache := cache, extract_calls := 1, embed_calls := 0,
        error := some "Error: File content not found.", chunks := [],
        retrieved_chunks := [], augmented_prompt := none }
    else
      let chunks := split text_content
      let embeddings := chunks.map encode
      let index : IndexFlatL2 := embeddings
      let cache2 := DocumentCache.set cache cache_document_key index chunks
      RagTool.rag_query encode request cache2 1 1 index chunks

/- ===== Code-execution tool output truncation
         (task/tools/py_interpreter/python_code_interpreter_tool.py) ===== -/

/-- A produced file in an `_ExecutionResult`. -/
structure ExecutionResultFile where
  name : String
  mime_type : String
  uri : String
deriving DecidableEq, Repr

/-- `_ExecutionResult` (`task/tools/py_interpreter/_response.py`): output
fragments and produced files. -/
structure ExecutionResult where
  output : List String
  files : List ExecutionResultFile
deriving DecidableEq, Repr

/-- The output-truncation step of `PythonCodeInterpreterTool._execute`
(`task/tools/py_interpreter/python_code_interpreter_tool.py` lines
122-125): when the output list is truthy, replace each fragment by its
first 200 characters. -/
def PythonCodeInterpreterTool.truncate_output (execution_result : ExecutionResult) :
    ExecutionResult :=
  if execution_result.output = [] then execution_result
  else { execution_result with
         output := execution_result.output.map (fun output => output.take 200) }

/- ===== Theorems ===== -/

/- ---- C1: tool execution contract ---- -/

/-- C1: for every tool implementation (`_execute` behaviour) and every
`ToolCallParams`, `execute` returns a message and never propagates an
exception (it is total); when `_execute` raises, the returned message is
the tool-role message whose content is the error marker
`ERROR during tool call execution:` followed by the exception's
description, whose `tool_call_id` is the input call id and whose `name` is
the called function's name; a structured `Message` result is returned
verbatim; a plain-text result becomes the message content. -/
theorem BaseTool.execute_contract
    (toolExec : ToolCallParams → Except String (String ⊕ Message))
    (p : ToolCallParams) :
    (∀ e, toolExec p = Except.error e →
      BaseTool.execute toolExec p =
        { role := Role.tool, name := some p.tool_call.function.name,
          tool_call_id := some p.tool_call.id,
          content := some ("ERROR during tool call execution:\n " ++ e) }) ∧
    (∀ m, toolExec p = Except.ok (Sum.inr m) → BaseTool.execute toolExec p = m) ∧
    (∀ s, toolExec p = Except.ok (Sum.inl s) →
      BaseTool.execute toolExec p =
        { role := Role.tool, name := some p.tool_call.function.name,
          tool_call_id := some p.tool_call.id, content := some s }) := by
  refine ⟨?_, ?_, ?_⟩ <;> intro x hx <;> simp [BaseTool.execute, hx]

/-- A concrete tool-call parameter bundle used by the witnesses. -/
def exToolCallParams : ToolCallParams :=
  { tool_call := { id := "call-1", function := { name := "my_tool", arguments := "\x7b\x7d" } },
    api_key := "key-1", conversation_id := "conv-1" }

/-- Witness for C1: a raising `_execute` stub at a concrete call. -/
theorem BaseTool.execute_contract_witness :
    BaseTool.execute (fun _ => Except.error "boom") exToolCallParams =
      { role := Role.tool, name := some "my_tool", tool_call_id := some "call-1",
        content := some ("ERROR during tool call execution:\n " ++ "boom") } :=
  (BaseTool.execute_contract (fun _ => Except.error "boom") exToolCallParams).1 "boom" rfl

/- ---- C2: streaming aggregation ---- -/

/-- What one deployment-loop step does, phrased against the increment's
text delta, attachment deltas and stage events. -/
theorem DeploymentTool.streamStep_eq (acc : StreamAcc) (chunk : StreamChunk) :
    DeploymentTool.streamStep acc chunk =
      { content := acc.content ++ (chunkTextDelta chunk).getD "",
        attachments := acc.attachments ++ chunkAttachmentDeltas chunk,
        stage := acc.stage ++ chunkStageEvents chunk } := by
  obtain ⟨c0, a0, s0⟩ := acc
  simp only [DeploymentTool.streamStep, chunkStageEvents, chunkTextDelta,
    chunkAttachmentDeltas]
  cases hh : chunk.choices.head? with
  | none => simp [hh]
  | some choice =>
    cases hd : choice.delta with
    | none => simp [hh, hd]
    | some delta =>
      cases hc : delta.content with
      | none =>
        cases hcc : delta.custom_content with
        | none => simp [hh, hd, hc, hcc]
        | some cc =>
          cases ha : cc.attachments with
          | none => simp [hh, hd, hc, hcc, ha]
          | some atts =>
            by_cases hae : atts = [] <;> simp [hh, hd, hc, hcc, ha, hae]
      | some ctext =>
        by_cases hce : ctext = "" <;>
        · cases hcc : delta.custom_content with
          | none => simp [hh, hd, hc, hcc, hce]
          | some cc =>
            cases ha : cc.attachments with
            | none => simp [hh, hd, hc, hcc, ha, hce]
            | some atts =>
              by_cases hae : atts = [] <;> simp [hh, hd, hc, hcc, ha, hce, hae]

/-- Unrolling the deployment streaming loop from any accumulator. -/
theorem DeploymentTool.streamFold_go (chunks : List StreamChunk) (acc : StreamAcc) :
    chunks.foldl DeploymentTool.streamStep acc =
      { content := acc.content ++ concatTexts (chunks.map (fun c => (chunkTextDelta c).getD "")),
        attachments := acc.attachments ++ (chunks.map chunkAttachmentDeltas).flatten,
        stage := acc.stage ++ (chunks.map chunkStageEvents).flatten } := by
  induction chunks generalizing acc with
  | nil => obtain ⟨c0, a0, s0⟩ := acc; simp [concatTexts]
  | cons ch rest ih =>
    simp only [List.foldl_cons, List.map_cons, List.flatten_cons, concatTexts]
    rw [DeploymentTool.streamStep_eq, ih]
    obtain ⟨c0, a0, s0⟩ := acc
    simp [String.append_assoc, List.append_assoc]

/-- What one RAG-loop step does, phrased against the increment's text
delta. -/
theorem RagTool.ragStreamStep_eq (acc : String × List StageEvent) (chunk : StreamChunk) :
    RagTool.streamStep acc chunk =
      (acc.1 ++ (chunkTextDelta chunk).getD "",
       acc.2 ++ match chunkTextDelta chunk with
                | none => []
                | some t => if t = "" then [] else [StageEvent.appendContent t]) := by
  obtain ⟨c0, s0⟩ := acc
  simp only [RagTool.streamStep, chunkTextDelta]
  cases hh : chunk.choices.head? with
  | none => simp [hh]
  | some choice =>
    cases hd : choice.delta with
    | none => simp [hh, hd]
    | some delta =>
      cases hc : delta.content with
      | none => simp [hh, hd, hc]
      | some ctext => by_cases hce : ctext = "" <;> simp [hh, hd, hc, hce]

/-- Unrolling the RAG streaming loop from any accumulator. -/
theorem RagTool.ragStreamFold_go (chunks : List StreamChunk) (acc : String × List StageEvent) :
    (chunks.foldl RagTool.streamStep acc).1 =
      acc.1 ++ concatTexts (chunks.map (fun c => (chunkTextDelta c).getD "")) := by
  induction chunks generalizing acc with
  | nil => simp [concatTexts]
  | cons ch rest ih =>
    simp only [List.foldl_cons, List.map_cons, concatTexts]
    rw [RagTool.ragStreamStep_eq, ih]
    simp [String.append_assoc]

/-- The attachment used in the concrete C2 scenario. -/
def exAttachment : Attachment :=
  { type := some "image/png", title := some "A", url := some "http://files/a.png" }

/-- The concrete increment sequence of the C2 scenario:
`[ (text "ab"), (attachments [A]), (text "c") ]`. -/
def exStreamChunks : List StreamChunk :=
  [ { choices := [ { delta := some { content := some "ab" } } ] },
    { choices := [ { delta := some { custom_content := some { attachments := some [exAttachment] } } } ] },
    { choices := [ { delta := some { content := some "c" } } ] } ]

/-- C2: the deployment streaming loop aggregates exactly the concatenation
of the text deltas in arrival order; it collects exactly the attachment
deltas in arrival order (within each increment, increments in order); the
stage receives, increment by increment in order, each text delta and each
attachment at the moment it is consumed; an increment with no choices or
no delta is a no-op; the RAG streaming loop aggregates the same text
concatenation; and on the concrete increments
`[(text "ab"), (attachments [A]), (text "c")]` the aggregate text is
`"abc"`, the attachment list is `[A]` and the stage receives exactly two
text appends, `"ab"` then `"c"`. -/
theorem streaming_aggregation_correct :
    (∀ chunks : List StreamChunk,
      (DeploymentTool.streamFold chunks).content =
        concatTexts (chunks.map (fun c => (chunkTextDelta c).getD "")) ∧
      (DeploymentTool.streamFold chunks).attachments =
        (chunks.map chunkAttachmentDeltas).flatten ∧
      (DeploymentTool.streamFold chunks).stage = (chunks.map chunkStageEvents).flatten) ∧
    (∀ (acc : StreamAcc) (chunk : StreamChunk), chunk.choices = [] →
      DeploymentTool.streamStep acc chunk = acc) ∧
    (∀ (acc : StreamAcc) (chunk : StreamChunk) (choice : StreamChoice)
        (rest : List StreamChoice),
      chunk.choices = choice :: rest → choice.delta = none →
      DeploymentTool.streamStep acc chunk = acc) ∧
    (∀ chunks : List StreamChunk,
      (RagTool.streamFold chunks).1 =
        concatTexts (chunks.map (fun c => (chunkTextDelta c).getD ""))) ∧
    ((DeploymentTool.streamFold exStreamChunks).content = "abc" ∧
     (DeploymentTool.streamFold exStreamChunks).attachments = [exAttachment] ∧
     (DeploymentTool.streamFold exStreamChunks).stage.filterMap stageText = ["ab", "c"] ∧
     (DeploymentTool.streamFold exStreamChunks).stage =
       [StageEvent.appendContent "ab", StageEvent.addAttachment exAttachment,
        StageEvent.appendContent "c"]) := by
  refine ⟨?_, ?_, ?_, ?_, ?_⟩
  · intro chunks
    unfold DeploymentTool.streamFold
    rw [DeploymentTool.streamFold_go]
    simp
  · intro acc chunk h
    unfold DeploymentTool.streamStep
    simp [h]
  · intro acc chunk choice rest h hd
    unfold DeploymentTool.streamStep
    simp [h, hd]
  · intro chunks
    unfold RagTool.streamFold
    rw [RagTool.ragStreamFold_go]
    simp
  · refine ⟨by decide, by decide, by decide, by decide⟩

/-- Witness for C2: a choice-less increment is a no-op at a concrete
accumulator. -/
theorem streaming_aggregation_correct_witness :
    DeploymentTool.streamStep { content := "x", attachments := [], stage := [] }
        { choices := [] } =
      { content := "x", attachments := [], stage := [] } :=
  streaming_aggregation_correct.2.1 _ _ rfl

/- ---- C4: close tears down in reverse order, swallows failures, clears handles ---- -/

/-- The events emitted by `close`, as a function of the two context handles
and the two exit outcomes: session-context events first, then
streams-context events. -/
theorem MCPClient.close_events (srv : MCPServer) (st : MCPClient) :
    (MCPClient.close srv st).2 =
      (match st._session_context, srv.session_aexit with
       | none, _ => []
       | some _, Except.ok _ => [MCPEvent.exitedSessionContext]
       | some _, Except.error e =>
         [MCPEvent.exitedSessionContext,
          MCPEvent.warned ("Warning: Error closing session context: " ++ e)]) ++
      (match st._streams_context, srv.streams_aexit with
       | none, _ => []
       | some _, Except.ok _ => [MCPEvent.exitedStreamsContext]
       | some _, Except.error e =>
         [MCPEvent.exitedStreamsContext,
          MCPEvent.warned ("Warning: Error closing streams context: " ++ e)]) := by
  cases hsc : st._session_context <;> cases htc : st._streams_context <;>
    rcases hs : srv.session_aexit with _ | _ <;> rcases ht : srv.streams_aexit with _ | _ <;>
    simp [MCPClient.close, hsc, htc, hs, ht]

/-- C4: `close` clears all three internal handles whatever the exit
outcomes are; its event trace is the session-layer events followed by the
streams-layer events (strict reverse order of acquisition), where the
session (resp. streams) layer is exited exactly when its context handle
was held — in particular an exit failure of the session layer, which only
produces a logged warning, does not prevent the streams layer from being
exited; `close` is total (never throws) and a second `close` in a row
returns the same cleared state and performs nothing. -/
theorem MCPClient.close_contract (srv : MCPServer) (st : MCPClient) :
    ((MCPClient.close srv st).1.session = none ∧
     (MCPClient.close srv st).1._session_context = none ∧
     (MCPClient.close srv st).1._streams_context = none) ∧
    (∃ sessionEvents streamsEvents,
      (MCPClient.close srv st).2 = sessionEvents ++ streamsEvents ∧
      (∀ e ∈ sessionEvents,
        e = MCPEvent.exitedSessionContext ∨ ∃ m, e = MCPEvent.warned m) ∧
      (∀ e ∈ streamsEvents,
        e = MCPEvent.exitedStreamsContext ∨ ∃ m, e = MCPEvent.warned m) ∧
      (MCPEvent.exitedSessionContext ∈ sessionEvents ↔ st._session_context.isSome) ∧
      (MCPEvent.exitedStreamsContext ∈ streamsEvents ↔ st._streams_context.isSome)) ∧
    MCPClient.close srv (MCPClient.close srv st).1 = ((MCPClient.close srv st).1, []) := by
  refine ⟨?_, ?_, ?_⟩
  · simp [MCPClient.close]
  · refine ⟨_, _, MCPClient.close_events srv st, ?_, ?_, ?_, ?_⟩ <;>
    · cases hsc : st._session_context <;> cases htc : st._streams_context <;>
        rcases hs : srv.session_aexit with _ | _ <;>
        rcases ht : srv.streams_aexit with _ | _ <;>
        simp [hsc, htc, hs, ht]
  · obtain ⟨u, se, sc, stc⟩ := st
    simp [MCPClient.close]

/-- A server stub used by the MCP witnesses: initialize succeeds, the ping
fails, context exits succeed, no tools, empty tool / resource results. -/
def exMCPServer : MCPServer :=
  { initialized_result := Except.ok (), ping_result := Except.error "ping timeout",
    tools := [], call_tool_result := fun _ _ => { content := [] },
    read_resource_result := fun _ => { contents := [] },
    session_aexit := Except.ok (), streams_aexit := Except.ok () }

/-- A freshly constructed (never connected) client. -/
def exMCPClientNew : MCPClient := { server_url := "http://mcp.example" }

/-- A connected client: all three handles held. -/
def exMCPClientConnected : MCPClient :=
  { server_url := "http://mcp.example", session := some (),
    _session_context := some (), _streams_context := some () }

/-- Witness for C4: closing a connected client at a concrete server. -/
theorem MCPClient.close_contract_witness :
    (MCPClient.close exMCPServer exMCPClientConnected).1.session = none ∧
    MCPClient.close exMCPServer (MCPClient.close exMCPServer exMCPClientConnected).1 =
      ((MCPClient.close exMCPServer exMCPClientConnected).1, []) :=
  ⟨(MCPClient.close_contract exMCPServer exMCPClientConnected).1.1,
   (MCPClient.close_contract exMCPServer exMCPClientConnected).2.2⟩

/- ---- C5: failed liveness probe tears down and fails with a connection error ---- -/

/-- C5: when the client is not yet connected, the handshake succeeds and
the liveness probe fails, `connect` fails with the connection error
`MCP server connection failed: ...`, the teardown (`close`) has been
invoked — both context layers are exited — and every internal handle of
the post-state is cleared, so a subsequent operation on the post-state
fails with the not-connected error: the session is never left half-open. -/
theorem MCPClient.connect_ping_failure (srv : MCPServer) (st : MCPClient) (e : String)
    (hs : st.session = none)
    (hi : srv.initialized_result = Except.ok ())
    (hp : srv.ping_result = Except.error e) :
    (MCPClient.connect srv st).1 = Except.error ("MCP server connection failed: " ++ e) ∧
    (MCPClient.connect srv st).2.1.session = none ∧
    (MCPClient.connect srv st).2.1._session_context = none ∧
    (MCPClient.connect srv st).2.1._streams_context = none ∧
    MCPEvent.exitedSessionContext ∈ (MCPClient.connect srv st).2.2 ∧
    MCPEvent.exitedStreamsContext ∈ (MCPClient.connect srv st).2.2 ∧
    MCPClient.get_tools srv (MCPClient.connect srv st).2.1 =
      Except.error "MCP client not connected." := by
  rcases hse : srv.session_aexit with e1 | u1 <;>
    rcases hst : srv.streams_aexit with e2 | u2 <;>
    simp [MCPClient.connect, MCPClient.close, MCPClient.get_tools, hs, hi, hp, hse, hst]

/-- Witness for C5: connecting a fresh client to a server whose ping
fails. -/
theorem MCPClient.connect_ping_failure_witness :
    (MCPClient.connect exMCPServer exMCPClientNew).1 =
      Except.error ("MCP server connection failed: " ++ "ping timeout") :=
  (MCPClient.connect_ping_failure exMCPServer exMCPClientNew "ping timeout" rfl rfl rfl).1

/- ---- C6: operations require Connected; connect is idempotent ---- -/

/-- C6: on a client whose session handle is cleared (never connected, or
closed), `get_tools`, `call_tool` and `get_resource` each fail immediately
with the not-connected error; and on a client that is already connected,
`connect` is a no-op: it returns success, leaves the state unchanged and
performs no event at all (no second handshake). -/
theorem MCPClient.operations_require_connected (srv : MCPServer) (st : MCPClient) :
    (st.session = none →
      MCPClient.get_tools srv st = Except.error "MCP client not connected." ∧
      (∀ tool_name tool_args, MCPClient.call_tool srv st tool_name tool_args =
        Except.error "MCP client not connected.") ∧
      (∀ uri, MCPClient.get_resource srv st uri =
        Except.error "MCP client not connected.")) ∧
    (st.session.isSome → MCPClient.connect srv st = (Except.ok (), st, [])) := by
  constructor
  · intro h
    refine ⟨?_, fun tool_name tool_args => ?_, fun uri => ?_⟩ <;>
      simp [MCPClient.get_tools, MCPClient.call_tool, MCPClient.get_resource, h]
  · intro h
    simp [MCPClient.connect, h]

/-- Witness for C6: a fresh client rejects `get_tools`, and `connect` on a
connected client is a no-op. -/
theorem MCPClient.operations_require_connected_witness :
    MCPClient.get_tools exMCPServer exMCPClientNew =
      Except.error "MCP client not connected." ∧
    MCPClient.connect exMCPServer exMCPClientConnected =
      (Except.ok (), exMCPClientConnected, []) :=
  ⟨((MCPClient.operations_require_connected exMCPServer exMCPClientNew).1 rfl).1,
   (MCPClient.operations_require_connected exMCPServer exMCPClientConnected).2 rfl⟩

/- ---- C7: get_resource content dispatch ---- -/

/-- C7: on a connected client, `get_resource` returns the text when the
first content item is textual, the blob when the first content item is a
blob, and fails with an error both on an empty content list and on an
unrecognized first content item. -/
theorem MCPClient.get_resource_cases (srv : MCPServer) (st : MCPClient) (uri : String)
    (hs : st.session.isSome) :
    ((srv.read_resource_result uri).contents = [] →
      MCPClient.get_resource srv st uri =
        Except.error ("No content in resource: " ++ uri)) ∧
    (∀ text rest, (srv.read_resource_result uri).contents =
        ResourceContents.textResourceContents text :: rest →
      MCPClient.get_resource srv st uri = Except.ok (ResourceValue.text text)) ∧
    (∀ blob rest, (srv.read_resource_result uri).contents =
        ResourceContents.blobResourceContents blob :: rest →
      MCPClient.get_resource srv st uri = Except.ok (ResourceValue.blob blob)) ∧
    (∀ payload rest, (srv.read_resource_result uri).contents =
        ResourceContents.otherContents payload :: rest →
      MCPClient.get_resource srv st uri =
        Except.error ("Unexpected content type: " ++ payload)) := by
  obtain ⟨s, hs2⟩ := Option.isSome_iff_exists.mp hs
  refine ⟨fun h => ?_, fun text rest h => ?_, fun blob rest h => ?_,
    fun payload rest h => ?_⟩ <;> simp [MCPClient.get_resource, hs2, h]

/-- Witness for C7: an empty resource on a connected client fails with the
no-content error. -/
theorem MCPClient.get_resource_cases_witness :
    MCPClient.get_resource exMCPServer exMCPClientConnected "res://x" =
      Except.error ("No content in resource: " ++ "res://x") :=
  (MCPClient.get_resource_cases exMCPServer exMCPClientConnected "res://x" rfl).1 rfl

/- ---- C10: call_tool consults only the first content item ---- -/

/-- C10: on a connected client, `call_tool` returns `None` when the
server's result has an empty content list; otherwise only the first
content item matters, whatever follows it: a textual first item yields its
text, any other first item is returned itself as an opaque value. -/
theorem MCPClient.call_tool_first_item (srv : MCPServer) (st : MCPClient)
    (tool_name tool_args : String) (hs : st.session.isSome) :
    ((srv.call_tool_result tool_name tool_args).content = [] →
      MCPClient.call_tool srv st tool_name tool_args =
        Except.ok CallToolValue.nothing) ∧
    (∀ text rest, (srv.call_tool_result tool_name tool_args).content =
        ToolContent.textContent text :: rest →
      MCPClient.call_tool srv st tool_name tool_args =
        Except.ok (CallToolValue.text text)) ∧
    (∀ payload rest, (srv.call_tool_result tool_name tool_args).content =
        ToolContent.otherContent payload :: rest →
      MCPClient.call_tool srv st tool_name tool_args =
        Except.ok (CallToolValue.item (ToolContent.otherContent payload))) := by
  obtain ⟨s, hs2⟩ := Option.isSome_iff_exists.mp hs
  refine ⟨fun h => ?_, fun text rest h => ?_, fun payload rest h => ?_⟩ <;>
    simp [MCPClient.call_tool, hs2, h]

/-- Witness for C10: an empty call result on a connected client returns
`None`. -/
theorem MCPClient.call_tool_first_item_witness :
    MCPClient.call_tool exMCPServer exMCPClientConnected "run" "\x7b\x7d" =
      Except.ok CallToolValue.nothing :=
  (MCPClient.call_tool_first_item exMCPServer exMCPClientConnected "run" "\x7b\x7d" rfl).1 rfl

/- ---- C3: cache key and cache-hit path ---- -/

/-- Reading a freshly stored cache entry back under its key. -/
theorem DocumentCache.get_set (cache : DocumentCache) (key : String)
    (index : IndexFlatL2) (chunks : List String) :
    DocumentCache.get (DocumentCache.set cache key index chunks) key =
      some (index, chunks) := by
  simp [DocumentCache.get, DocumentCache.set, List.lookup]

/-- C3: the RAG tool looks the document up under the cache key
`conversation_id ++ ":" ++ file_url`; when the Document Cache holds an
entry for that key, the stored (index, chunks) pair is reused — the
extractor is not invoked, no document embedding happens and the cache is
unchanged; consequently a second retrieval call with the same conversation
id and document URL, even with a different request string, performs no
re-extraction and no re-embedding and works on the chunks stored by the
first call. -/
theorem RagTool.cache_key_and_hit (split : String → List String)
    (encode : String → EmbeddingVec) (extract_text : String → String)
    (conversation_id file_url request request2 : String) (cache : DocumentCache) :
    (∀ index chunks,
      DocumentCache.get cache (conversation_id ++ ":" ++ file_url) = some (index, chunks) →
      (RagTool._execute split encode extract_text conversation_id request file_url
          cache).extract_calls = 0 ∧
      (RagTool._execute split encode extract_text conversation_id request file_url
          cache).embed_calls = 0 ∧
      (RagTool._execute split encode extract_text conversation_id request file_url
          cache).chunks = chunks ∧
      (RagTool._execute split encode extract_text conversation_id request file_url
          cache).cache = cache) ∧
    (DocumentCache.get cache (conversation_id ++ ":" ++ file_url) = none →
      extract_text file_url ≠ "" →
      (RagTool._execute split encode extract_text conversation_id request2 file_url
          (RagTool._execute split encode extract_text conversation_id request file_url
            cache).cache).extract_calls = 0 ∧
      (RagTool._execute split encode extract_text conversation_id request2 file_url
          (RagTool._execute split encode extract_text conversation_id request file_url
            cache).cache).embed_calls = 0 ∧
      (RagTool._execute split encode extract_text conversation_id request2 file_url
          (RagTool._execute split encode extract_text conversation_id request file_url
            cache).cache).chunks =
        (RagTool._execute split encode extract_text conversation_id request file_url
          cache).chunks) := by
  constructor
  · intro index chunks h
    simp [RagTool._execute, RagTool.rag_query, h]
  · intro hmiss hne
    have hfirst : RagTool._execute split encode extract_text conversation_id request
        file_url cache =
        RagTool.rag_query encode request
          (DocumentCache.set cache (conversation_id ++ ":" ++ file_url)
            ((split (extract_text file_url)).map encode) (split (extract_text file_url)))
          1 1 ((split (extract_text file_url)).map encode) (split (extract_text file_url)) := by
      simp [RagTool._execute, hmiss, hne]
    rw [hfirst]
    simp [RagTool._execute, RagTool.rag_query, DocumentCache.get_set]

/-- A trivial splitter used by the RAG witnesses: the whole text is one
chunk. -/
def exSplit : String → List String := fun t => [t]

/-- A concrete embedding used by the RAG witnesses: one coordinate, the
text's length. -/
def exEncode : String → EmbeddingVec := fun s => [(s.length : Int)]

/-- A concrete extractor used by the RAG witnesses. -/
def exExtract : String → String := fun _ => "Paris is the capital of France."

/-- Witness for C3: a first call on an empty cache followed by a second
call with a different request performs no re-extraction and no
re-embedding. -/
theorem RagTool.cache_key_and_hit_witness :
    (RagTool._execute exSplit exEncode exExtract "conv" "q2" "file.txt"
        (RagTool._execute exSplit exEncode exExtract "conv" "q1" "file.txt"
          []).cache).extract_calls = 0 ∧
    (RagTool._execute exSplit exEncode exExtract "conv" "q2" "file.txt"
        (RagTool._execute exSplit exEncode exExtract "conv" "q1" "file.txt"
          []).cache).embed_calls = 0 ∧
    (RagTool._execute exSplit exEncode exExtract "conv" "q2" "file.txt"
        (RagTool._execute exSplit exEncode exExtract "conv" "q1" "file.txt"
          []).cache).chunks =
      (RagTool._execute exSplit exEncode exExtract "conv" "q1" "file.txt" []).chunks :=
  (RagTool.cache_key_and_hit exSplit exEncode exExtract "conv" "file.txt" "q1" "q2"
    []).2 rfl (by decide)

/- ---- C8: k = min(3, n) nearest chunks, order, and prompt shape ---- -/

/-- The flat-index search returns `min k rows` hits. -/
theorem IndexFlatL2.search_length (index : IndexFlatL2) (query : EmbeddingVec) (k : Nat) :
    (IndexFlatL2.search index query k).length = min k index.length := by
  unfold IndexFlatL2.search
  rw [List.length_map, List.length_take, List.length_insertionSort, List.length_map,
    List.length_range]

/-- The flat-index search returns its hits in increasing L2-distance
order. -/
theorem IndexFlatL2.search_sorted (index : IndexFlatL2) (query : EmbeddingVec) (k : Nat) :
    List.Pairwise
      (fun i j => l2sq (index.getD i []) query ≤ l2sq (index.getD j []) query)
      (IndexFlatL2.search index query k) := by
  haveI ht : IsTotal (Int × Nat) distLE := ⟨by intro a b; unfold distLE; omega⟩
  haveI htr : IsTrans (Int × Nat) distLE := ⟨by intro a b c; unfold distLE; omega⟩
  have hsorted := List.sorted_insertionSort distLE
    ((List.range index.length).map (fun i => (l2sq (index.getD i []) query, i)))
  have hsub : List.Pairwise distLE
      ((((List.range index.length).map
        (fun i => (l2sq (index.getD i []) query, i))).insertionSort distLE).take k) :=
    List.Pairwise.sublist (List.take_sublist k _) hsorted
  have hmem : ∀ p ∈ (((List.range index.length).map
      (fun i => (l2sq (index.getD i []) query, i))).insertionSort distLE).take k,
      p.1 = l2sq (index.getD p.2 []) query := by
    intro p hp
    have hp2 := List.mem_of_mem_take hp
    have hp3 := (List.perm_insertionSort distLE _).mem_iff.mp hp2
    obtain ⟨i, hi, rfl⟩ := List.mem_map.mp hp3
    rfl
  unfold IndexFlatL2.search
  rw [List.pairwise_map]
  refine hsub.imp_of_mem ?_
  intro a b ha hb hab
  have ha2 := hmem a ha
  have hb2 := hmem b hb
  unfold distLE at hab
  rw [← ha2, ← hb2]
  omega

/-- C8: for a non-empty chunk list whose index has one row per chunk, the
retrieval step produces exactly `k = min(3, chunk count)` retrieved
chunks, namely the chunks at the indices the search returns, in the
search's order, which is increasing L2 distance; and the augmented prompt
is exactly `CONTEXT:` plus the retrieved chunks joined by blank lines,
a `---` separator line, then `REQUEST: ` followed by the original
request — in particular it contains `REQUEST: <original request>`
literally. -/
theorem RagTool.retrieval_spec (encode : String → EmbeddingVec) (request : String)
    (cache : DocumentCache) (extract_calls embed_calls : Nat)
    (index : IndexFlatL2) (chunks : List String)
    (hne : chunks ≠ []) (hrows : index.length = chunks.length) :
    (RagTool.rag_query encode request cache extract_calls embed_calls index
        chunks).retrieved_chunks.length = min 3 chunks.length ∧
    (RagTool.rag_query encode request cache extract_calls embed_calls index
        chunks).retrieved_chunks =
      (IndexFlatL2.search index (encode request) (min 3 chunks.length)).map
        (fun idx => chunks.getD idx "") ∧
    List.Pairwise
      (fun i j => l2sq (index.getD i []) (encode request) ≤
        l2sq (index.getD j []) (encode request))
      (IndexFlatL2.search index (encode request) (min 3 chunks.length)) ∧
    (RagTool.rag_query encode request cache extract_calls embed_calls index
        chunks).augmented_prompt =
      some ("CONTEXT:\n" ++
        String.intercalate "\n\n"
          (RagTool.rag_query encode request cache extract_calls embed_calls index
            chunks).retrieved_chunks ++ "\n---\nREQUEST: " ++ request) ∧
    (∃ pre, (RagTool.rag_query encode request cache extract_calls embed_calls index
        chunks).augmented_prompt = some (pre ++ ("REQUEST: " ++ request))) := by
  refine ⟨?_, ?_, ?_, ?_, ?_⟩
  · rw [RagTool.rag_query]
    simp only [List.length_map, IndexFlatL2.search_length, hrows]
    rw [Nat.min_assoc, Nat.min_self]
  · rw [RagTool.rag_query]
  · exact IndexFlatL2.search_sorted index (encode request) (min 3 chunks.length)
  · rw [RagTool.rag_query]
    simp [RagTool.augmentation]
  · refine ⟨"CONTEXT:\n" ++
      String.intercalate "\n\n"
        (RagTool.rag_query encode request cache extract_calls embed_calls index
          chunks).retrieved_chunks ++ "\n---\n", ?_⟩
    have hsplit : ("\n---\nREQUEST: " : String) = "\n---\n" ++ "REQUEST: " := rfl
    rw [RagTool.rag_query]
    simp only [RagTool.augmentation, hsplit, String.append_assoc]

/-- Witness for C8: two chunks, a two-row index, a concrete embedding. -/
theorem RagTool.retrieval_spec_witness :
    (RagTool.rag_query exEncode "qq" [] 0 0 [[0], [5]]
        ["alpha", "beta"]).retrieved_chunks.length =
      min 3 (["alpha", "beta"] : List String).length :=
  (RagTool.retrieval_spec exEncode "qq" [] 0 0 [[0], [5]] ["alpha", "beta"]
    (by decide) rfl).1

/- ---- C9: output fragments truncated to 200 characters ---- -/

/-- Taking at most `n` characters of a string yields a string of at most
`n` characters. -/
theorem string_take_length_le (s : String) (n : Nat) : (s.take n).length ≤ n := by
  rw [String.take_eq]
  show (List.take n s.data).length ≤ n
  rw [List.length_take]
  omega

/-- A 300-character output fragment. -/
def xString300 : String := String.mk (List.replicate 300 'x')

/-- Taking 200 characters of the 300-character fragment yields exactly 200
characters. -/
theorem xString300_take_length : (xString300.take 200).length = 200 := by
  rw [xString300, String.take_eq]
  show (List.take 200 (List.replicate 300 'x')).length = 200
  rw [List.length_take, List.length_replicate]
  rfl

/-- Evaluating the truncation step on the concrete 300-character
fragment. -/
theorem PythonCodeInterpreterTool.truncate_output_x300 :
    (PythonCodeInterpreterTool.truncate_output
      { output := [xString300], files := [] }).output = [xString300.take 200] := rfl

/-- C9: the code-execution tool replaces every output fragment by its
first 200 characters (so each returned fragment has at most 200
characters) and leaves the files untouched; in particular for
`ExecutionResult(output=["x"*300], files=[])` the returned output array
has a single element whose length is exactly 200. -/
theorem PythonCodeInterpreterTool.truncate_output_spec (r : ExecutionResult) :
    (PythonCodeInterpreterTool.truncate_output r).output =
      r.output.map (fun s => s.take 200) ∧
    (∀ s ∈ (PythonCodeInterpreterTool.truncate_output r).output, s.length ≤ 200) ∧
    (PythonCodeInterpreterTool.truncate_output r).files = r.files ∧
    (PythonCodeInterpreterTool.truncate_output
        { output := [xString300], files := [] }).output.length = 1 ∧
    (∀ s ∈ (PythonCodeInterpreterTool.truncate_output
        { output := [xString300], files := [] }).output, s.length = 200) := by
  have hmap : (PythonCodeInterpreterTool.truncate_output r).output =
      r.output.map (fun s => s.take 200) := by
    by_cases h : r.output = [] <;> simp [PythonCodeInterpreterTool.truncate_output, h]
  refine ⟨hmap, ?_, ?_, ?_, ?_⟩
  · intro s hs
    rw [hmap] at hs
    obtain ⟨t, ht, rfl⟩ := List.mem_map.mp hs
    exact string_take_length_le t 200
  · by_cases h : r.output = [] <;> simp [PythonCodeInterpreterTool.truncate_output, h]
  · rw [PythonCodeInterpreterTool.truncate_output_x300]
    rfl
  · intro s hs
    rw [PythonCodeInterpreterTool.truncate_output_x300, List.mem_singleton] at hs
    rw [hs]
    exact xString300_take_length

/-- Witness for C9: the 300-character fragment is returned with exactly
200 characters. -/
theorem PythonCodeInterpreterTool.truncate_output_spec_witness :
    (xString300.take 200).length = 200 :=
  (PythonCodeInterpreterTool.truncate_output_spec
      { output := [xString300], files := [] }).2.2.2.2 (xString300.take 200)
    (by rw [PythonCodeInterpreterTool.truncate_output_x300]; exact List.mem_singleton.mpr rfl)
